import Mathlib

/-!
# Shallow embedding of the BPM core (src/src/analysis/metrics.py and
  src/src/data_io/excel_reader.py)

Blood-pressure values and timestamps are embedded as rationals (the Python
code computes on float64; we use exact rational arithmetic as the idealised
semantics).  numpy's NaN is embedded as `Option`: `none` stands for a
non-finite float (NaN or infinity), `some v` for the finite value `v`.
Standard deviations involve a square root and therefore live in `ℝ`
(`Real.sqrt` of a rational variance).

A Python value that can be either `None` or a float that can itself be NaN
is embedded as `Option (Option ℚ)`: the outer `none` is Python's `None`,
`some none` is a stored NaN, `some (some v)` a finite float.

`pandas.sort_values` is modelled as a stable sort (rows with equal
timestamps keep their input order).
-/

namespace BPM

/-- One row of the reading frame handed to `_calculate_patient_metrics`:
a timestamp (minutes since an arbitrary epoch) and possibly-missing SBP and
DBP cells (a missing cell is a NaN in the pandas column). -/
structure Reading where
  t : ℕ
  sbp : Option ℚ
  dbp : Option ℚ
  deriving Repr, DecidableEq

/-- `pd.to_datetime(...).dt.hour` of a timestamp in minutes. -/
def hourOf (r : Reading) : ℕ := r.t / 60 % 24

/-- Stable insertion of a row into a list sorted by the key `k`
(the new row goes before rows with an equal key, which keeps the sort
stable when used front-to-back). -/
def insertByKey {α : Type} (k : α → ℕ) (a : α) : List α → List α
  | [] => [a]
  | x :: xs => if k a ≤ k x then a :: x :: xs else x :: insertByKey k a xs

/-- Stable sort by the key `k`: embedding of `df.sort_values(col)`. -/
def sortByKey {α : Type} (k : α → ℕ) : List α → List α
  | [] => []
  | x :: xs => insertByKey k x (sortByKey k xs)

/-- `df.sort_values(time_col)`. -/
def sortReadings (g : List Reading) : List Reading := sortByKey Reading.t g

/-- `np.mean` of a nonempty finite array (callers guard emptiness;
on `[]` numpy would return NaN). -/
def meanQ (xs : List ℚ) : ℚ := xs.sum / xs.length

/-- `np.mean` with the NaN-on-empty behaviour made explicit. -/
def npMean (xs : List ℚ) : Option ℚ :=
  if xs.isEmpty then none else some (meanQ xs)

/-- Sample variance with `ddof=1` (callers guard `len ≥ 2`). -/
def sampleVar (xs : List ℚ) : ℚ :=
  (xs.map (fun x => (x - meanQ xs) ^ 2)).sum / (xs.length - 1)

/-- `np.std(xs, ddof=1)` on a finite array of length ≥ 2:
the square root of the sample variance. -/
noncomputable def sdR (xs : List ℚ) : ℝ := Real.sqrt ((sampleVar xs : ℚ) : ℝ)

/-- Sequence a pandas column: `some` of the values when no cell is missing,
`none` as soon as one cell is NaN. -/
def allSome : List (Option ℚ) → Option (List ℚ)
  | [] => some []
  | none :: _ => none
  | some v :: xs => (allSome xs).map (v :: ·)

/-- `np.std(·, ddof=1)` on a raw column: NaN (`none`) if a cell is missing
or fewer than two cells are present. -/
noncomputable def npStdO (xs : List (Option ℚ)) : Option ℝ :=
  match allSome xs with
  | none => none
  | some vs => if vs.length < 2 then none else some (sdR vs)

/-- `np.mean` on a raw column: NaN if a cell is missing or the column is
empty. -/
def npMeanO (xs : List (Option ℚ)) : Option ℚ :=
  match allSome xs with
  | none => none
  | some vs => if vs.isEmpty then none else some (meanQ vs)

/-- `np.min` on a nonempty raw column: NaN if a cell is missing. -/
def npMinO (xs : List (Option ℚ)) : Option ℚ :=
  match allSome xs with
  | none => none
  | some vs => vs.min?

/-- Average Real Variability: `np.mean(np.abs(np.diff(values)))`,
0 when fewer than two values (`_calculate_arv`). -/
def arvQ (xs : List ℚ) : ℚ :=
  if xs.length < 2 then 0
  else meanQ (List.zipWith (fun a b => |b - a|) xs xs.tail)

/-- Round a rational to the nearest integer, ties to even
(Python/numpy `round` on floats, idealised to exact arithmetic). -/
def halfEven (x : ℚ) : ℤ :=
  if x - ⌊x⌋ < 1 / 2 then ⌊x⌋
  else if 1 / 2 < x - ⌊x⌋ then ⌊x⌋ + 1
  else if ⌊x⌋ % 2 = 0 then ⌊x⌋ else ⌊x⌋ + 1

/-- Python `round(x, nd)` on an exact rational. -/
def pyRound (nd : ℕ) (x : ℚ) : ℚ := (halfEven (x * 10 ^ nd) : ℚ) / 10 ^ nd

/-- Ties-to-even rounding on `ℝ`. -/
noncomputable def halfEvenR (x : ℝ) : ℤ :=
  if x - ⌊x⌋ < 1 / 2 then ⌊x⌋
  else if 1 / 2 < x - ⌊x⌋ then ⌊x⌋ + 1
  else if ⌊x⌋ % 2 = 0 then ⌊x⌋ else ⌊x⌋ + 1

/-- Python `round(x, nd)` on a real. -/
noncomputable def pyRoundR (nd : ℕ) (x : ℝ) : ℝ :=
  (halfEvenR (x * 10 ^ nd) : ℝ) / 10 ^ nd

/-- `round(w, nd) if w else None` on a Python-`None`-or-float value:
`None` and `0.0` are falsy, NaN is truthy (and rounds to NaN). -/
def pyTruthyRound (nd : ℕ) : Option (Option ℚ) → Option (Option ℚ)
  | none => none
  | some none => some none
  | some (some v) => if v = 0 then none else some (some (pyRound nd v))

/-- `round(w, nd) if w else None` on the real-valued weighted-SD field. -/
noncomputable def pyTruthyRoundR (nd : ℕ) : Option (Option ℝ) → Option (Option ℝ)
  | none => none
  | some none => some none
  | some (some v) => if v = 0 then none else some (some (pyRoundR nd v))

/-- `sbp - dbp[:len(sbp)]` under numpy broadcasting, where `b` is already
the truncated array (so `b.length ≤ a.length`): equal lengths subtract
pairwise, a length-1 `b` is broadcast against all of `a`, an empty `b`
against a length-1 `a` gives the empty array, and any other mismatch
raises a broadcast `ValueError` (`none`). -/
def npSub (a b : List ℚ) : Option (List ℚ) :=
  if b.length = a.length then some (List.zipWith (fun x y => x - y) a b)
  else if b.length = 1 then some (a.map (fun x => x - b.headI))
  else if a.length = 1 then some []
  else none

/-- `DippingStatus` (nocturnal dipping classification). -/
inductive DippingStatus where
  | EXTREME_DIPPER
  | NORMAL_DIPPER
  | NON_DIPPER
  | REVERSE_DIPPER
  deriving Repr, DecidableEq

/-- `HypertensionStage` (AHA/ACC classification). -/
inductive HypertensionStage where
  | NORMAL
  | ELEVATED
  | STAGE_1
  | STAGE_2
  | CRISIS
  deriving Repr, DecidableEq

/-- Time period constants of `BPMetricsCalculator` (hours). -/
def DAYTIME_START : ℕ := 8

def DAYTIME_END : ℕ := 22

def NIGHTTIME_START : ℕ := 0

def NIGHTTIME_END : ℕ := 6

/-- The dictionary returned by `_split_day_night`: the raw (unfiltered)
SBP/DBP columns of the daytime and nighttime row subsets plus the window
widths in hours. -/
structure DayNight where
  day_sbp : List (Option ℚ)
  day_dbp : List (Option ℚ)
  day_hours : ℕ
  night_sbp : List (Option ℚ)
  night_dbp : List (Option ℚ)
  night_hours : ℕ
  deriving Repr, DecidableEq

/-- The daytime row subset: local hour in `[DAYTIME_START, DAYTIME_END)`. -/
def dayRows (df : List Reading) : List Reading :=
  df.filter fun r => decide (DAYTIME_START ≤ hourOf r ∧ hourOf r < DAYTIME_END)

/-- The nighttime row subset: local hour in `[NIGHTTIME_START, NIGHTTIME_END)`. -/
def nightRows (df : List Reading) : List Reading :=
  df.filter fun r => decide (NIGHTTIME_START ≤ hourOf r ∧ hourOf r < NIGHTTIME_END)

/-- `_split_day_night`: bucket the rows by local hour into day `[8,22)` and
night `[0,6)`; `None` unless each bucket holds at least two rows.  The
night window width is computed exactly as in the source:
`NIGHTTIME_END - NIGHTTIME_START + 24 - DAYTIME_END + DAYTIME_START`. -/
def splitDayNight (df : List Reading) : Option DayNight :=
  let daytime := dayRows df
  let nighttime := nightRows df
  if daytime.length < 2 ∨ nighttime.length < 2 then none
  else some
    { day_sbp := daytime.map Reading.sbp
      day_dbp := daytime.map Reading.dbp
      day_hours := DAYTIME_END - DAYTIME_START
      night_sbp := nighttime.map Reading.sbp
      night_dbp := nighttime.map Reading.dbp
      night_hours := NIGHTTIME_END - NIGHTTIME_START + 24 - DAYTIME_END + DAYTIME_START }

/-- `_calculate_weighted_sd`: SD of each bucket weighted by the stored
window widths and divided by their sum.  NaN cells propagate. -/
noncomputable def calcWeightedSd (dn : DayNight) : Option ℝ × Option ℝ :=
  let total : ℕ := dn.day_hours + dn.night_hours
  let combine : Option ℝ → Option ℝ → Option ℝ := fun a b =>
    match a, b with
    | some x, some y =>
        some ((x * dn.day_hours + y * dn.night_hours) / (total : ℝ))
    | _, _ => none
  (combine (npStdO dn.day_sbp) (npStdO dn.night_sbp),
   combine (npStdO dn.day_dbp) (npStdO dn.night_dbp))

/-- `_calculate_dipping`: `((day_mean - night_mean) / day_mean) * 100`,
Python `None` (outer `none`) when the day mean is 0; a NaN day or night
mean yields a NaN result (NaN compares unequal to 0). -/
def calcDipping (dn : DayNight) : Option (Option ℚ) :=
  match npMeanO dn.day_sbp with
  | none => some none
  | some dayMean =>
      if dayMean = 0 then none
      else
        match npMeanO dn.night_sbp with
        | none => some none
        | some nightMean => some (some ((dayMean - nightMean) / dayMean * 100))

/-- `_classify_dipping`.  A NaN percentage fails every comparison and falls
through to the extreme-dipper branch. -/
def classifyDipping : Option ℚ → DippingStatus
  | some p =>
      if p < 0 then DippingStatus.REVERSE_DIPPER
      else if p < 10 then DippingStatus.NON_DIPPER
      else if p ≤ 20 then DippingStatus.NORMAL_DIPPER
      else DippingStatus.EXTREME_DIPPER
  | none => DippingStatus.EXTREME_DIPPER

/-- `_calculate_morning_surge`: mean of the first `max(1, len(day)//4)`
daytime SBP cells minus the minimum nighttime SBP cell; Python `None` when
either bucket is empty; NaN cells propagate. -/
def calcMorningSurge (dn : DayNight) : Option (Option ℚ) :=
  if dn.night_sbp.length = 0 then none
  else if dn.day_sbp.length = 0 then none
  else
    match npMeanO (dn.day_sbp.take (max 1 (dn.day_sbp.length / 4))),
        npMinO dn.night_sbp with
    | some m, some lo => some (some (m - lo))
    | _, _ => some none

/-- `_classify_bp` (AHA/ACC 2017), evaluated on the group means. -/
def classifyBp (sbp dbp : ℚ) : HypertensionStage :=
  if 180 < sbp ∨ 120 < dbp then HypertensionStage.CRISIS
  else if 140 ≤ sbp ∨ 90 ≤ dbp then HypertensionStage.STAGE_2
  else if 130 ≤ sbp ∨ 80 ≤ dbp then HypertensionStage.STAGE_1
  else if 120 ≤ sbp then HypertensionStage.ELEVATED
  else HypertensionStage.NORMAL

/-- The `VariabilityMetrics` dataclass.  Fields that the source stores as
`None`-or-float are `Option (Option ·)` (outer `none` = Python `None`,
`some none` = stored NaN). -/
structure VariabilityMetrics where
  mean_sbp : ℚ
  mean_dbp : ℚ
  min_sbp : ℚ
  max_sbp : ℚ
  min_dbp : ℚ
  max_dbp : ℚ
  reading_count : ℕ
  sd_sbp : ℝ
  sd_dbp : ℝ
  cv_sbp : ℝ
  cv_dbp : ℝ
  arv_sbp : ℚ
  arv_dbp : ℚ
  weighted_sd_sbp : Option (Option ℝ)
  weighted_sd_dbp : Option (Option ℝ)
  pulse_pressure_mean : Option ℚ
  morning_surge : Option (Option ℚ)
  dipping_percentage : Option (Option ℚ)
  dipping_status : Option DippingStatus
  mean_bp_classification : HypertensionStage

/-- The exceptions `_calculate_patient_metrics` can raise: the broadcast
`ValueError` of `sbp - dbp[:len(sbp)]` on incompatible shapes, and the
`ValueError` of `np.min`/`np.max` on an empty array. -/
inductive CalcError where
  | broadcastMismatch
  | emptyReduction
  deriving Repr, DecidableEq

/-- `_calculate_patient_metrics`: sort by timestamp, drop NaNs from each
pressure column independently, compute every statistic, and build the
record; raises (returns `.error`) exactly where the Python raises. -/
noncomputable def calcPatientMetrics (g : List Reading) :
    Except CalcError VariabilityMetrics :=
  let df := sortReadings g
  let sbp := df.filterMap Reading.sbp
  let dbp := df.filterMap Reading.dbp
  let mean_sbp := meanQ sbp
  let mean_dbp := meanQ dbp
  let sd_sbp : ℝ := if 1 < sbp.length then sdR sbp else 0
  let sd_dbp : ℝ := if 1 < dbp.length then sdR dbp else 0
  let cv_sbp : ℝ := if 0 < mean_sbp then sd_sbp / (mean_sbp : ℝ) * 100 else 0
  let cv_dbp : ℝ := if 0 < mean_dbp then sd_dbp / (mean_dbp : ℝ) * 100 else 0
  let arv_sbp := arvQ sbp
  let arv_dbp := arvQ dbp
  match npSub sbp (dbp.take sbp.length) with
  | none => Except.error CalcError.broadcastMismatch
  | some diffs =>
    let pulse_pressure := npMean diffs
    let day_night := if 0 < df.length then splitDayNight df else none
    let weighted_sd_sbp : Option (Option ℝ) :=
      day_night.map fun dn => (calcWeightedSd dn).1
    let weighted_sd_dbp : Option (Option ℝ) :=
      day_night.map fun dn => (calcWeightedSd dn).2
    let dipping_pct : Option (Option ℚ) := day_night.bind calcDipping
    let dipping_status : Option DippingStatus := dipping_pct.map classifyDipping
    let morning_surge : Option (Option ℚ) := day_night.bind calcMorningSurge
    let bp_class := classifyBp mean_sbp mean_dbp
    match sbp.min?, sbp.max?, dbp.min?, dbp.max? with
    | some minS, some maxS, some minD, some maxD =>
        Except.ok
          { mean_sbp := pyRound 1 mean_sbp
            mean_dbp := pyRound 1 mean_dbp
            min_sbp := pyRound 1 minS
            max_sbp := pyRound 1 maxS
            min_dbp := pyRound 1 minD
            max_dbp := pyRound 1 maxD
            reading_count := sbp.length
            sd_sbp := pyRoundR 2 sd_sbp
            sd_dbp := pyRoundR 2 sd_dbp
            cv_sbp := pyRoundR 2 cv_sbp
            cv_dbp := pyRoundR 2 cv_dbp
            arv_sbp := pyRound 2 arv_sbp
            arv_dbp := pyRound 2 arv_dbp
            weighted_sd_sbp := pyTruthyRoundR 2 weighted_sd_sbp
            weighted_sd_dbp := pyTruthyRoundR 2 weighted_sd_dbp
            pulse_pressure_mean := pulse_pressure.map (pyRound 1)
            morning_surge := pyTruthyRound 1 morning_surge
            dipping_percentage := pyTruthyRound 1 dipping_pct
            dipping_status := dipping_status
            mean_bp_classification := bp_class }
    | _, _, _, _ => Except.error CalcError.emptyReduction

/-! ## Visit-to-visit (longitudinal) variability -/

/-- One clinic visit row handed to `calculate_visit_to_visit_variability`
(cells taken as finite numerics). -/
structure Visit where
  visit_date : ℕ
  sbp : ℚ
  dbp : ℚ
  deriving Repr, DecidableEq

/-- One result row of `calculate_visit_to_visit_variability`.  The CV
fields carry `Option ℝ` because their division by the mean is unguarded:
`none` stands for the non-finite float numpy produces on a zero mean. -/
structure VisitVariabilityRow where
  visit_count : ℕ
  mean_sbp : ℚ
  mean_dbp : ℚ
  sd_sbp : ℝ
  sd_dbp : ℝ
  cv_sbp : Option ℝ
  cv_dbp : Option ℝ
  arv_sbp : ℚ
  arv_dbp : ℚ
  max_sbp : ℚ
  min_sbp : ℚ
  range_sbp : ℚ

/-- numpy float division: non-finite (`none`) when the denominator is 0. -/
noncomputable def npDivR (a : ℝ) (b : ℚ) : Option ℝ :=
  if b = 0 then none else some (a / (b : ℝ))

/-- The body of `calculate_visit_to_visit_variability` for one patient
group: sort by visit date, and produce a row only when the patient has at
least two visits (`None` = the patient is skipped). -/
noncomputable def visitToVisitRow (rows : List Visit) : Option VisitVariabilityRow :=
  let group := sortByKey Visit.visit_date rows
  let sbp_values := group.map Visit.sbp
  let dbp_values := group.map Visit.dbp
  if 2 ≤ sbp_values.length then
    some
      { visit_count := sbp_values.length
        mean_sbp := meanQ sbp_values
        mean_dbp := meanQ dbp_values
        sd_sbp := sdR sbp_values
        sd_dbp := sdR dbp_values
        cv_sbp := (npDivR (sdR sbp_values) (meanQ sbp_values)).map (· * 100)
        cv_dbp := (npDivR (sdR dbp_values) (meanQ dbp_values)).map (· * 100)
        arv_sbp := meanQ (List.zipWith (fun a b => |b - a|) sbp_values sbp_values.tail)
        arv_dbp := meanQ (List.zipWith (fun a b => |b - a|) dbp_values dbp_values.tail)
        max_sbp := (sbp_values.max?).getD 0
        min_sbp := (sbp_values.min?).getD 0
        range_sbp := (sbp_values.max?).getD 0 - (sbp_values.min?).getD 0 }
  else none

/-! ## Column auto-detection (`excel_reader.py`) -/

/-- `ColumnType`. -/
inductive ColumnType where
  | PATIENT_ID
  | DATE
  | TIME
  | DATETIME
  | SBP
  | DBP
  | HEART_RATE
  | NOTES
  | IGNORE
  deriving Repr, DecidableEq

/-- One entry of `COLUMN_PATTERNS`, a regex over lower-case column names.
Every pattern in the source is either fully anchored (`^lit$`, field
`anchored = true` with a single literal) or a sequence of literals
separated by `.*`, searched anywhere in the name. -/
structure NamePat where
  anchored : Bool
  lits : List String
  deriving Repr, DecidableEq

/-- Find the first occurrence of `pat` in `s` and return the remaining
suffix after it (`re`-style unanchored search of one literal). -/
def searchRest (s pat : List Char) : Option (List Char) :=
  match s with
  | [] => if pat = [] then some [] else none
  | c :: rest =>
      if pat.isPrefixOf (c :: rest) then some ((c :: rest).drop pat.length)
      else searchRest rest pat

/-- Search the literals in order, each strictly after the previous match:
the semantics of `re.search` for a pattern `lit1.*lit2.*…`. -/
def seqSearch (s : List Char) : List (List Char) → Bool
  | [] => true
  | l :: ls =>
      match searchRest s l with
      | none => false
      | some rest => seqSearch rest ls

/-- `re.search(pattern, s)` for the two pattern shapes in the source. -/
def matchPat (p : NamePat) (s : String) : Bool :=
  if p.anchored then
    match p.lits with
    | [l] => s == l
    | _ => false
  else seqSearch s.toList (p.lits.map String.toList)

/-- Python whitespace for `str.strip()`. -/
def isSpaceChar (c : Char) : Bool :=
  c == ' ' || c == '\t' || c == '\n' || c == '\r'

/-- `col.lower().strip()` (ASCII lowering suffices for the patterns). -/
def normName (s : String) : String :=
  String.mk
    ((((s.toList.map Char.toLower).dropWhile isSpaceChar).reverse.dropWhile
        isSpaceChar).reverse)

/-- `COLUMN_PATTERNS`, in the dictionary's insertion order (which is the
iteration order of `_auto_detect_columns`). -/
def COLUMN_PATTERNS : List (ColumnType × List NamePat) :=
  [ (ColumnType.PATIENT_ID,
      [⟨false, ["patient", "id"]⟩, ⟨false, ["id"]⟩, ⟨false, ["mrn"]⟩,
       ⟨false, ["subject"]⟩, ⟨false, ["hasta", "no"]⟩,
       ⟨false, ["participant"]⟩, ⟨false, ["record", "id"]⟩,
       ⟨false, ["case", "id"]⟩]),
    (ColumnType.DATE,
      [⟨true, ["date"]⟩, ⟨false, ["measurement", "date"]⟩,
       ⟨false, ["reading", "date"]⟩, ⟨false, ["visit", "date"]⟩,
       ⟨false, ["tarih"]⟩, ⟨false, ["datum"]⟩]),
    (ColumnType.TIME,
      [⟨true, ["time"]⟩, ⟨false, ["measurement", "time"]⟩,
       ⟨false, ["reading", "time"]⟩, ⟨false, ["saat"]⟩]),
    (ColumnType.DATETIME,
      [⟨false, ["datetime"]⟩, ⟨false, ["timestamp"]⟩,
       ⟨false, ["date", "time"]⟩, ⟨false, ["when"]⟩]),
    (ColumnType.SBP,
      [⟨false, ["sbp"]⟩, ⟨false, ["systolic"]⟩, ⟨false, ["sys"]⟩,
       ⟨false, ["sistolik"]⟩, ⟨false, ["upper"]⟩,
       ⟨false, ["systolic", "bp"]⟩, ⟨false, ["sys", "pressure"]⟩]),
    (ColumnType.DBP,
      [⟨false, ["dbp"]⟩, ⟨false, ["diastolic"]⟩, ⟨false, ["dia"]⟩,
       ⟨false, ["diastolik"]⟩, ⟨false, ["lower"]⟩,
       ⟨false, ["diastolic", "bp"]⟩, ⟨false, ["dia", "pressure"]⟩]),
    (ColumnType.HEART_RATE,
      [⟨false, ["hr"]⟩, ⟨false, ["heart", "rate"]⟩, ⟨false, ["pulse"]⟩,
       ⟨false, ["bpm"]⟩, ⟨false, ["nabiz"]⟩, ⟨false, ["kalp"]⟩]),
    (ColumnType.NOTES,
      [⟨false, ["note"]⟩, ⟨false, ["comment"]⟩, ⟨false, ["remark"]⟩,
       ⟨false, ["observation"]⟩, ⟨false, ["not"]⟩]) ]

/-- Does any pattern of one role match the (already lowered) name?  The
source breaks out of the pattern loop at the first hit; since every hit
carries the same confidence this is equivalent to `any`. -/
def matchesRole (pats : List NamePat) (s : String) : Bool :=
  pats.any fun p => matchPat p s

/-- One iteration of the role loop of `_auto_detect_columns`: a name match
proposes confidence 0.8 and replaces the best candidate only when strictly
greater than the confidence held so far. -/
def detectStep (lowered : String) (best : Option ColumnType × ℚ)
    (entry : ColumnType × List NamePat) : Option ColumnType × ℚ :=
  if matchesRole entry.2 lowered then
    if (0.8 : ℚ) > best.2 then (some entry.1, 0.8) else best
  else best

/-- `_auto_detect_columns` for one column.  `content` is the value
`_analyze_column_content` would return for this column's data; it is
consulted only when no name pattern matched. -/
def autoDetectColumn (name : String) (content : Option ColumnType × ℚ) :
    ColumnType × ℚ :=
  let lowered := normName name
  let best := COLUMN_PATTERNS.foldl (detectStep lowered) (none, 0)
  match best.1 with
  | some ct => (ct, best.2)
  | none =>
      match content.1 with
      | some ct => (ct, content.2)
      | none => (ColumnType.IGNORE, 0)

/-- The first role in priority order one of whose name patterns matches
the column name (specification-side description of the tie-break). -/
def firstNameRole (name : String) : Option ColumnType :=
  (COLUMN_PATTERNS.find? fun e => matchesRole e.2 (normName name)).map Prod.fst

/-! ## Abbreviations used by the theorems -/

/-- The surviving SBP sequence: the `sbp` column of the time-sorted frame
with its missing cells dropped (`df[sbp_col].dropna().values`). -/
def sbpSeq (g : List Reading) : List ℚ :=
  (sortReadings g).filterMap Reading.sbp

/-- The surviving DBP sequence. -/
def dbpSeq (g : List Reading) : List ℚ :=
  (sortReadings g).filterMap Reading.dbp

/-- The day/night split as `_calculate_patient_metrics` invokes it. -/
def dayNightOf (g : List Reading) : Option DayNight :=
  if 0 < (sortReadings g).length then splitDayNight (sortReadings g) else none

/-- The present SBP values of the day bucket, in chronological order. -/
def daySbp (g : List Reading) : List ℚ :=
  (dayRows (sortReadings g)).filterMap Reading.sbp

/-- The present SBP values of the night bucket, in chronological order. -/
def nightSbp (g : List Reading) : List ℚ :=
  (nightRows (sortReadings g)).filterMap Reading.sbp

/-! ## Concrete input groups used by evaluations and witnesses

Times are minutes, so hour `h` is minute `60 * h`. -/

/-- Two day readings (hours 9, 10) with equal SBP and three night readings
(hours 1, 2, 3) with SBP 99, 100, 101: day SD 0, night SD 1. -/
def grpWSd : List Reading :=
  [⟨540, some 100, some 70⟩, ⟨600, some 100, some 71⟩,
   ⟨60, some 99, some 60⟩, ⟨120, some 100, some 61⟩, ⟨180, some 101, some 62⟩]

/-- Day and night buckets with identical mean SBP: dipping percentage 0. -/
def grpZeroDip : List Reading :=
  [⟨60, some 120, some 80⟩, ⟨120, some 120, some 80⟩,
   ⟨480, some 120, some 80⟩, ⟨540, some 120, some 80⟩]

/-- A reading with SBP present but DBP missing next to a complete one. -/
def grpMissingDbp : List Reading :=
  [⟨480, some 120, none⟩, ⟨540, some 130, some 80⟩]

/-- Five day readings (hours 8..12) and two night readings: the morning
window is `max(1, 5 // 4) = 1` reading, not `⌈5/4⌉ = 2`. -/
def grpDay5 : List Reading :=
  [⟨480, some 100, some 70⟩, ⟨540, some 120, some 70⟩, ⟨600, some 120, some 70⟩,
   ⟨660, some 120, some 70⟩, ⟨720, some 120, some 70⟩,
   ⟨60, some 90, some 60⟩, ⟨120, some 95, some 60⟩]

/-- Three readings whose DBP column has two surviving cells: the surviving
DBP sequence is shorter than the SBP sequence and has length ≠ 1. -/
def grpDbpShort : List Reading :=
  [⟨0, some 120, some 80⟩, ⟨60, some 130, some 85⟩, ⟨120, some 125, none⟩]

/-- The end-to-end group of the specification: day SBP 140, 150, 145 and
night SBP 120, 118. -/
def grpNormalDip : List Reading :=
  [⟨480, some 140, some 90⟩, ⟨720, some 150, some 95⟩, ⟨1200, some 145, some 92⟩,
   ⟨120, some 120, some 78⟩, ⟨240, some 118, some 76⟩]

/-- A two-reading group with negative pressures (mean ≤ 0). -/
def grpNegMean : List Reading :=
  [⟨0, some (-1), some (-1)⟩, ⟨60, some (-1), some (-1)⟩]

/-- Three visits with SBP -4, -5, -6: mean -5, sample SD 1. -/
def visitsNeg : List Visit :=
  [⟨1, -4, -4⟩, ⟨2, -5, -5⟩, ⟨3, -6, -6⟩]

/-- The record `_calculate_patient_metrics` returns on the success path,
written in terms of the group (used to characterise the success path once
and project fields from it in the theorems). -/
noncomputable def okRecord (g : List Reading) (diffs : List ℚ)
    (minS maxS minD maxD : ℚ) : VariabilityMetrics :=
  { mean_sbp := pyRound 1 (meanQ (sbpSeq g))
    mean_dbp := pyRound 1 (meanQ (dbpSeq g))
    min_sbp := pyRound 1 minS
    max_sbp := pyRound 1 maxS
    min_dbp := pyRound 1 minD
    max_dbp := pyRound 1 maxD
    reading_count := (sbpSeq g).length
    sd_sbp := pyRoundR 2 (if 1 < (sbpSeq g).length then sdR (sbpSeq g) else 0)
    sd_dbp := pyRoundR 2 (if 1 < (dbpSeq g).length then sdR (dbpSeq g) else 0)
    cv_sbp := pyRoundR 2
      (if 0 < meanQ (sbpSeq g) then
        (if 1 < (sbpSeq g).length then sdR (sbpSeq g) else 0) /
          ((meanQ (sbpSeq g) : ℚ) : ℝ) * 100
      else 0)
    cv_dbp := pyRoundR 2
      (if 0 < meanQ (dbpSeq g) then
        (if 1 < (dbpSeq g).length then sdR (dbpSeq g) else 0) /
          ((meanQ (dbpSeq g) : ℚ) : ℝ) * 100
      else 0)
    arv_sbp := pyRound 2 (arvQ (sbpSeq g))
    arv_dbp := pyRound 2 (arvQ (dbpSeq g))
    weighted_sd_sbp := pyTruthyRoundR 2 ((dayNightOf g).map fun dn => (calcWeightedSd dn).1)
    weighted_sd_dbp := pyTruthyRoundR 2 ((dayNightOf g).map fun dn => (calcWeightedSd dn).2)
    pulse_pressure_mean := (npMean diffs).map (pyRound 1)
    morning_surge := pyTruthyRound 1 ((dayNightOf g).bind calcMorningSurge)
    dipping_percentage := pyTruthyRound 1 ((dayNightOf g).bind calcDipping)
    dipping_status := ((dayNightOf g).bind calcDipping).map classifyDipping
    mean_bp_classification := classifyBp (meanQ (sbpSeq g)) (meanQ (dbpSeq g)) }

end BPM

namespace BPM

/-! ## Helper lemmas -/

theorem calcPatientMetrics_ok (g : List Reading) (diffs : List ℚ)
    (minS maxS minD maxD : ℚ)
    (hsub : npSub (sbpSeq g) ((dbpSeq g).take (sbpSeq g).length) = some diffs)
    (hminS : (sbpSeq g).min? = some minS) (hmaxS : (sbpSeq g).max? = some maxS)
    (hminD : (dbpSeq g).min? = some minD) (hmaxD : (dbpSeq g).max? = some maxD) :
    calcPatientMetrics g = Except.ok (okRecord g diffs minS maxS minD maxD) := by
  simp only [sbpSeq, dbpSeq] at hsub hminS hmaxS hminD hmaxD
  simp only [calcPatientMetrics, okRecord, sbpSeq, dbpSeq, dayNightOf,
    hsub, hminS, hmaxS, hminD, hmaxD]

theorem calcPatientMetrics_broadcast (g : List Reading)
    (hsub : npSub (sbpSeq g) ((dbpSeq g).take (sbpSeq g).length) = none) :
    calcPatientMetrics g = Except.error CalcError.broadcastMismatch := by
  simp only [sbpSeq, dbpSeq] at hsub
  simp only [calcPatientMetrics, hsub]

theorem calcPatientMetrics_ok_inv (g : List Reading) (m : VariabilityMetrics)
    (h : calcPatientMetrics g = Except.ok m) :
    ∃ diffs minS maxS minD maxD,
      npSub (sbpSeq g) ((dbpSeq g).take (sbpSeq g).length) = some diffs ∧
      (sbpSeq g).min? = some minS ∧ (sbpSeq g).max? = some maxS ∧
      (dbpSeq g).min? = some minD ∧ (dbpSeq g).max? = some maxD ∧
      m = okRecord g diffs minS maxS minD maxD := by
  rcases hsub : npSub (sbpSeq g) ((dbpSeq g).take (sbpSeq g).length) with _ | diffs
  · rw [calcPatientMetrics_broadcast g hsub] at h
    exact Except.noConfusion h
  · rcases hminS : (sbpSeq g).min? with _ | minS
    · simp only [calcPatientMetrics] at h
      simp only [sbpSeq, dbpSeq] at hsub hminS
      simp only [hsub, hminS] at h
      exact Except.noConfusion h
    · rcases hmaxS : (sbpSeq g).max? with _ | maxS
      · simp only [calcPatientMetrics] at h
        simp only [sbpSeq, dbpSeq] at hsub hminS hmaxS
        simp only [hsub, hminS, hmaxS] at h
        exact Except.noConfusion h
      · rcases hminD : (dbpSeq g).min? with _ | minD
        · simp only [calcPatientMetrics] at h
          simp only [sbpSeq, dbpSeq] at hsub hminS hmaxS hminD
          simp only [hsub, hminS, hmaxS, hminD] at h
          exact Except.noConfusion h
        · rcases hmaxD : (dbpSeq g).max? with _ | maxD
          · simp only [calcPatientMetrics] at h
            simp only [sbpSeq, dbpSeq] at hsub hminS hmaxS hminD hmaxD
            simp only [hsub, hminS, hmaxS, hminD, hmaxD] at h
            exact Except.noConfusion h
          · refine ⟨diffs, minS, maxS, minD, maxD, rfl, rfl, rfl, rfl, rfl, ?_⟩
            rw [calcPatientMetrics_ok g diffs minS maxS minD maxD hsub hminS
              hmaxS hminD hmaxD] at h
            exact (Except.ok.inj h).symm

theorem calcPatientMetrics_error_of_empty (g : List Reading)
    (h : sbpSeq g = [] ∨ dbpSeq g = []) :
    ∃ e, calcPatientMetrics g = Except.error e := by
  rcases hsub : npSub (sbpSeq g) ((dbpSeq g).take (sbpSeq g).length) with _ | diffs
  · exact ⟨CalcError.broadcastMismatch, calcPatientMetrics_broadcast g hsub⟩
  · refine ⟨CalcError.emptyReduction, ?_⟩
    rcases hS : sbpSeq g with _ | ⟨s, S⟩
    · have hminS : (sbpSeq g).min? = none := by rw [hS]; rfl
      simp only [calcPatientMetrics]
      simp only [sbpSeq, dbpSeq] at hsub hminS
      simp only [hsub, hminS]
    · have hD : dbpSeq g = [] := by
        rcases h with h | h
        · rw [h] at hS; exact List.noConfusion hS
        · exact h
      have hminS : (sbpSeq g).min? = some (S.foldl min s) := by
        rw [hS]; rfl
      have hmaxS : (sbpSeq g).max? = some (S.foldl max s) := by
        rw [hS]; rfl
      have hminD : (dbpSeq g).min? = none := by rw [hD]; rfl
      simp only [calcPatientMetrics]
      simp only [sbpSeq, dbpSeq] at hsub hminS hmaxS hminD
      simp only [hsub, hminS, hmaxS, hminD]

theorem insertByKey_perm {α : Type} (k : α → ℕ) (a : α) (l : List α) :
    (insertByKey k a l).Perm (a :: l) := by
  induction l with
  | nil => exact List.Perm.refl _
  | cons x xs ih =>
      simp only [insertByKey]
      split
      · exact List.Perm.refl _
      · exact (ih.cons x).trans (List.Perm.swap a x xs)

theorem sortByKey_perm {α : Type} (k : α → ℕ) (l : List α) :
    (sortByKey k l).Perm l := by
  induction l with
  | nil => exact List.Perm.refl _
  | cons x xs ih => exact (insertByKey_perm k x (sortByKey k xs)).trans (ih.cons x)

theorem sortReadings_perm (g : List Reading) : (sortReadings g).Perm g :=
  sortByKey_perm Reading.t g

theorem length_filterMap_isSome {α β : Type} (f : α → Option β) (l : List α) :
    (l.filterMap f).length = (l.filter fun a => (f a).isSome).length := by
  induction l with
  | nil => rfl
  | cons x xs ih =>
      rcases hf : f x with _ | v <;>
        simp [List.filterMap_cons, List.filter_cons, hf, ih]

theorem allSome_map (f : Reading → Option ℚ) (l : List Reading)
    (hp : ∀ r ∈ l, (f r).isSome) :
    allSome (l.map f) = some (l.filterMap f) := by
  induction l with
  | nil => rfl
  | cons x xs ih =>
      obtain ⟨v, hv⟩ := Option.isSome_iff_exists.mp (hp x (List.mem_cons_self x xs))
      rw [List.map_cons, List.filterMap_cons, hv]
      simp only [allSome, ih fun r hr => hp r (List.mem_cons_of_mem x hr)]
      rfl

theorem pyRoundR_zero (nd : ℕ) : pyRoundR nd 0 = 0 := by
  simp [pyRoundR, halfEvenR]

theorem foldl_detectStep_stable (s : String) (ct : ColumnType)
    (l : List (ColumnType × List NamePat)) :
    l.foldl (detectStep s) (some ct, 0.8) = (some ct, 0.8) := by
  induction l with
  | nil => rfl
  | cons e es ih =>
      have hstep : detectStep s (some ct, 0.8) e = (some ct, 0.8) := by
        simp only [detectStep]
        split
        · norm_num
        · rfl
      rw [List.foldl_cons, hstep, ih]

theorem foldl_detectStep_find (s : String) (l : List (ColumnType × List NamePat))
    (e : ColumnType × List NamePat)
    (h : (l.find? fun en => matchesRole en.2 s) = some e) :
    l.foldl (detectStep s) (none, 0) = (some e.1, 0.8) := by
  induction l with
  | nil => exact Option.noConfusion h
  | cons x xs ih =>
      cases hx : matchesRole x.2 s with
      | true =>
          simp only [List.find?, hx] at h
          have hstep : detectStep s (none, 0) x = (some x.1, 0.8) := by
            simp [detectStep, hx, show (0.8 : ℚ) > 0 from by norm_num]
          rw [List.foldl_cons, hstep, foldl_detectStep_stable,
            Option.some.inj h]
      | false =>
          simp only [List.find?, hx] at h
          have hstep : detectStep s (none, 0) x = (none, 0) := by
            simp [detectStep, hx]
          rw [List.foldl_cons, hstep, ih h]

theorem calc_grpNormalDip_ok :
    calcPatientMetrics grpNormalDip =
      Except.ok (okRecord grpNormalDip [42, 42, 50, 55, 53] 118 150 76 95) := by
  have hS : sbpSeq grpNormalDip = [120, 118, 140, 150, 145] := by decide
  have hD : dbpSeq grpNormalDip = [78, 76, 90, 95, 92] := by decide
  refine calcPatientMetrics_ok _ _ _ _ _ _ ?_ ?_ ?_ ?_ ?_
  · rw [hS, hD]
    norm_num [npSub, List.take, List.zipWith]
  · rw [hS]
    norm_num [List.min?, List.foldl, min_def]
  · rw [hS]
    norm_num [List.max?, List.foldl, max_def]
  · rw [hD]
    norm_num [List.min?, List.foldl, min_def]
  · rw [hD]
    norm_num [List.max?, List.foldl, max_def]

theorem calc_grpZeroDip_ok :
    calcPatientMetrics grpZeroDip =
      Except.ok (okRecord grpZeroDip [40, 40, 40, 40] 120 120 80 80) := by
  have hS : sbpSeq grpZeroDip = [120, 120, 120, 120] := by decide
  have hD : dbpSeq grpZeroDip = [80, 80, 80, 80] := by decide
  refine calcPatientMetrics_ok _ _ _ _ _ _ ?_ ?_ ?_ ?_ ?_
  · rw [hS, hD]
    norm_num [npSub, List.take, List.zipWith]
  · rw [hS]
    norm_num [List.min?, List.foldl, min_def]
  · rw [hS]
    norm_num [List.max?, List.foldl, max_def]
  · rw [hD]
    norm_num [List.min?, List.foldl, min_def]
  · rw [hD]
    norm_num [List.max?, List.foldl, max_def]

theorem calc_grpMissingDbp_ok :
    calcPatientMetrics grpMissingDbp =
      Except.ok (okRecord grpMissingDbp [40, 50] 120 130 80 80) := by
  have hS : sbpSeq grpMissingDbp = [120, 130] := by decide
  have hD : dbpSeq grpMissingDbp = [80] := by decide
  refine calcPatientMetrics_ok _ _ _ _ _ _ ?_ ?_ ?_ ?_ ?_
  · rw [hS, hD]
    norm_num [npSub, List.take, List.zipWith, List.headI]
  · rw [hS]
    norm_num [List.min?, List.foldl, min_def]
  · rw [hS]
    norm_num [List.max?, List.foldl, max_def]
  · rw [hD]
    norm_num [List.min?, List.foldl, min_def]
  · rw [hD]
    norm_num [List.max?, List.foldl, max_def]

theorem calc_grpDay5_ok :
    calcPatientMetrics grpDay5 =
      Except.ok (okRecord grpDay5 [30, 35, 30, 50, 50, 50, 50] 90 120 60 70) := by
  have hS : sbpSeq grpDay5 = [90, 95, 100, 120, 120, 120, 120] := by decide
  have hD : dbpSeq grpDay5 = [60, 60, 70, 70, 70, 70, 70] := by decide
  refine calcPatientMetrics_ok _ _ _ _ _ _ ?_ ?_ ?_ ?_ ?_
  · rw [hS, hD]
    norm_num [npSub, List.take, List.zipWith]
  · rw [hS]
    norm_num [List.min?, List.foldl, min_def]
  · rw [hS]
    norm_num [List.max?, List.foldl, max_def]
  · rw [hD]
    norm_num [List.min?, List.foldl, min_def]
  · rw [hD]
    norm_num [List.max?, List.foldl, max_def]

theorem calc_grpWSd_ok :
    calcPatientMetrics grpWSd =
      Except.ok (okRecord grpWSd [39, 39, 39, 30, 29] 99 101 60 71) := by
  have hS : sbpSeq grpWSd = [99, 100, 101, 100, 100] := by decide
  have hD : dbpSeq grpWSd = [60, 61, 62, 70, 71] := by decide
  refine calcPatientMetrics_ok _ _ _ _ _ _ ?_ ?_ ?_ ?_ ?_
  · rw [hS, hD]
    norm_num [npSub, List.take, List.zipWith]
  · rw [hS]
    norm_num [List.min?, List.foldl, min_def]
  · rw [hS]
    norm_num [List.max?, List.foldl, max_def]
  · rw [hD]
    norm_num [List.min?, List.foldl, min_def]
  · rw [hD]
    norm_num [List.max?, List.foldl, max_def]

theorem calc_grpNegMean_ok :
    calcPatientMetrics grpNegMean =
      Except.ok (okRecord grpNegMean [0, 0] (-1) (-1) (-1) (-1)) := by
  have hS : sbpSeq grpNegMean = [-1, -1] := by decide
  have hD : dbpSeq grpNegMean = [-1, -1] := by decide
  refine calcPatientMetrics_ok _ _ _ _ _ _ ?_ ?_ ?_ ?_ ?_
  · rw [hS, hD]
    norm_num [npSub, List.take, List.zipWith]
  · rw [hS]
    norm_num [List.min?, List.foldl, min_def]
  · rw [hS]
    norm_num [List.max?, List.foldl, max_def]
  · rw [hD]
    norm_num [List.min?, List.foldl, min_def]
  · rw [hD]
    norm_num [List.max?, List.foldl, max_def]

/-! ## Claim theorems -/

/-- C8: the blood-pressure stage is classified from the group mean SBP and
mean DBP with the crisis check first, then stage 2, stage 1, elevated,
normal, first match winning; in particular mean 181/70 is a crisis. -/
theorem c8_bp_stage_order :
    (∀ s d : ℚ,
      (classifyBp s d = HypertensionStage.CRISIS ↔ 180 < s ∨ 120 < d) ∧
      (classifyBp s d = HypertensionStage.STAGE_2 ↔
        ¬(180 < s ∨ 120 < d) ∧ (140 ≤ s ∨ 90 ≤ d)) ∧
      (classifyBp s d = HypertensionStage.STAGE_1 ↔
        ¬(180 < s ∨ 120 < d) ∧ ¬(140 ≤ s ∨ 90 ≤ d) ∧ (130 ≤ s ∨ 80 ≤ d)) ∧
      (classifyBp s d = HypertensionStage.ELEVATED ↔
        ¬(180 < s ∨ 120 < d) ∧ ¬(140 ≤ s ∨ 90 ≤ d) ∧ ¬(130 ≤ s ∨ 80 ≤ d) ∧
          120 ≤ s) ∧
      (classifyBp s d = HypertensionStage.NORMAL ↔
        ¬(180 < s ∨ 120 < d) ∧ ¬(140 ≤ s ∨ 90 ≤ d) ∧ ¬(130 ≤ s ∨ 80 ≤ d) ∧
          ¬(120 ≤ s))) ∧
    (∀ g : List Reading,
      (calcPatientMetrics g).toOption.map (fun m => m.mean_bp_classification) =
      (calcPatientMetrics g).toOption.map fun _ =>
        classifyBp (meanQ (sbpSeq g)) (meanQ (dbpSeq g))) ∧
    classifyBp 181 70 = HypertensionStage.CRISIS := by
  refine ⟨?_, ?_, ?_⟩
  · intro s d
    unfold classifyBp
    split_ifs <;> simp_all
  · intro g
    cases h : calcPatientMetrics g with
    | error e => rfl
    | ok m =>
        obtain ⟨diffs, minS, maxS, minD, maxD, _, _, _, _, _, hm⟩ :=
          calcPatientMetrics_ok_inv g m h
        subst hm
        rfl
  · norm_num [classifyBp]

/-- C9: a column whose normalised name matches a name pattern is assigned
the first matching role in priority order with confidence 0.8, whatever
the content analysis would have said (it is never consulted). -/
theorem c9_name_match_priority (name : String) (content : Option ColumnType × ℚ)
    (ct : ColumnType) (h : firstNameRole name = some ct) :
    autoDetectColumn name content = (ct, 0.8) := by
  unfold firstNameRole at h
  obtain ⟨e, he, hct⟩ := Option.map_eq_some'.mp h
  simp only [autoDetectColumn]
  rw [foldl_detectStep_find (normName name) COLUMN_PATTERNS e he]
  simp [hct]

/-- C9 witness: the column name `SBP ` normalises to `sbp`, matches the
systolic role's first pattern, and wins with confidence 0.8 even when the
content analysis would have proposed a heart-rate column. -/
theorem c9_witness_sbp :
    firstNameRole "SBP " = some ColumnType.SBP ∧
    autoDetectColumn "SBP " (some ColumnType.HEART_RATE, 0.5) =
      (ColumnType.SBP, 0.8) :=
  ⟨by decide, c9_name_match_priority _ _ _ (by decide)⟩

/-- C10: on a group whose day and night mean SBP agree (dipping percentage
exactly 0) the returned record carries a dipping classification
(Non-Dipper) while the dipping percentage itself is absent. -/
theorem c10_status_without_percentage :
    ((calcPatientMetrics grpZeroDip).toOption.map fun m =>
      (m.dipping_status, m.dipping_percentage)) =
    some (some DippingStatus.NON_DIPPER, none) := by
  rw [calc_grpZeroDip_ok]
  have hdn : dayNightOf grpZeroDip = some
      { day_sbp := [some 120, some 120], day_dbp := [some 80, some 80],
        day_hours := 14, night_sbp := [some 120, some 120],
        night_dbp := [some 80, some 80], night_hours := 16 } := by decide
  simp only [Except.toOption, Option.map, okRecord, hdn]
  norm_num +decide [calcDipping, npMeanO, allSome, meanQ, pyTruthyRound,
    classifyDipping, Option.bind]

/-- C4 counterexample: the same group has day mean SBP 120 ≠ 0, yet the
dipping percentage is absent, contradicting `absent exactly when the mean
daytime SBP equals 0`. -/
theorem c4_cx_zero_dipping_absent :
    ((calcPatientMetrics grpZeroDip).toOption.map fun m => m.dipping_percentage) =
      some none ∧
    meanQ (daySbp grpZeroDip) = 120 ∧ (120 : ℚ) ≠ 0 := by
  refine ⟨?_, ?_, by norm_num⟩
  · rw [calc_grpZeroDip_ok]
    have hdn : dayNightOf grpZeroDip = some
        { day_sbp := [some 120, some 120], day_dbp := [some 80, some 80],
          day_hours := 14, night_sbp := [some 120, some 120],
          night_dbp := [some 80, some 80], night_hours := 16 } := by decide
    simp only [Except.toOption, Option.map, okRecord, hdn]
    norm_num +decide [calcDipping, npMeanO, allSome, meanQ, pyTruthyRound,
      Option.bind]
  · have hday : daySbp grpZeroDip = [120, 120] := by decide
    rw [hday]
    norm_num [meanQ]

/-- C3 counterexample: the empty reading group makes the engine raise
(`np.min` of an empty array), instead of returning a record with
`reading_count = 0`. -/
theorem c3_cx_empty_group_error :
    calcPatientMetrics [] = Except.error CalcError.emptyReduction := by
  have h : npSub (sbpSeq []) ((dbpSeq []).take (sbpSeq []).length) = some [] := rfl
  simp only [calcPatientMetrics]
  simp only [sbpSeq, dbpSeq] at h
  simp only [h]
  rfl

/-- C3 amended: a group whose surviving SBP or DBP column is empty raises
an exception instead of returning metrics, and a returned record always
has a positive reading count (`reading_count = 0` is never reported). -/
theorem c3_empty_raises :
    (∀ g : List Reading, sbpSeq g = [] ∨ dbpSeq g = [] →
      ∃ e, calcPatientMetrics g = Except.error e) ∧
    (∀ (g : List Reading) (m : VariabilityMetrics),
      calcPatientMetrics g = Except.ok m → 0 < m.reading_count) := by
  constructor
  · exact calcPatientMetrics_error_of_empty
  · intro g m h
    obtain ⟨diffs, minS, maxS, minD, maxD, _, hminS, _, _, _, hm⟩ :=
      calcPatientMetrics_ok_inv g m h
    subst hm
    have hne : sbpSeq g ≠ [] := by
      intro he
      rw [he] at hminS
      exact Option.noConfusion hminS
    simpa [okRecord] using List.length_pos.mpr hne

/-- C3 witness: the amended statement applied to the empty group. -/
theorem c3_witness_empty :
    (sbpSeq ([] : List Reading) = [] ∨ dbpSeq ([] : List Reading) = []) ∧
    ∃ e, calcPatientMetrics ([] : List Reading) = Except.error e :=
  ⟨Or.inl rfl, c3_empty_raises.1 [] (Or.inl rfl)⟩

/-- C2 amended: missing cells are dropped from each pressure column
independently, not reading-wise: a returned record's reading count is the
number of readings whose SBP is present (regardless of DBP), and each mean
is the mean of that column's surviving values alone; missing values are
never coerced to zero. -/
theorem c2_per_column_drop (g : List Reading) (m : VariabilityMetrics)
    (h : calcPatientMetrics g = Except.ok m) :
    m.reading_count = (g.filter fun r => r.sbp.isSome).length ∧
    m.mean_sbp = pyRound 1 (meanQ (g.filterMap Reading.sbp)) ∧
    m.mean_dbp = pyRound 1 (meanQ (g.filterMap Reading.dbp)) := by
  obtain ⟨diffs, minS, maxS, minD, maxD, _, _, _, _, _, hm⟩ :=
    calcPatientMetrics_ok_inv g m h
  subst hm
  have hpermS := (sortReadings_perm g).filterMap Reading.sbp
  have hpermD := (sortReadings_perm g).filterMap Reading.dbp
  refine ⟨?_, ?_, ?_⟩
  · simp only [okRecord, sbpSeq]
    rw [hpermS.length_eq, length_filterMap_isSome]
  · simp only [okRecord, sbpSeq, meanQ]
    rw [hpermS.sum_eq, hpermS.length_eq]
  · simp only [okRecord, dbpSeq, meanQ]
    rw [hpermD.sum_eq, hpermD.length_eq]

/-- C2 counterexample: a reading with SBP 120 and missing DBP still
contributes its SBP: the group `[(120, missing), (130, 80)]` reports
reading count 2 and mean SBP 125, not the count 1 and mean 130 that
whole-reading dropping would give. -/
theorem c2_cx_orphan_sbp_used :
    ((calcPatientMetrics grpMissingDbp).toOption.map fun m =>
      (m.reading_count, m.mean_sbp)) = some (2, 125) ∧
    meanQ ((grpMissingDbp.filter fun r =>
      r.sbp.isSome && r.dbp.isSome).filterMap Reading.sbp) = 130 := by
  constructor
  · rw [calc_grpMissingDbp_ok]
    have hS : sbpSeq grpMissingDbp = [120, 130] := by decide
    simp only [Except.toOption, Option.map, okRecord, hS]
    norm_num [meanQ, pyRound, halfEven, Int.fract]
  · have : (grpMissingDbp.filter fun r =>
        r.sbp.isSome && r.dbp.isSome).filterMap Reading.sbp = [130] := by decide
    rw [this]
    norm_num [meanQ]

/-- C2 witness: the amended statement applied to the five-reading group. -/
theorem c2_witness_eval :
    ((calcPatientMetrics grpNormalDip).toOption.map fun m => m.reading_count) =
      some 5 := by
  rw [calc_grpNormalDip_ok]
  have h := (c2_per_column_drop grpNormalDip _ calc_grpNormalDip_ok).1
  simp only [Except.toOption, Option.map]
  rw [h]
  decide

theorem npSub_singleton (a : List ℚ) (d : ℚ) (ha : a ≠ []) :
    npSub a [d] = some (a.map fun x => x - d) := by
  rcases a with _ | ⟨x, xs⟩
  · exact absurd rfl ha
  · rcases xs with _ | ⟨y, ys⟩
    · simp [npSub, List.headI]
    · simp [npSub, List.headI]

/-- C6 amended: pulse pressure is `mean(sbp - dbp[:len(sbp)])` under numpy
broadcasting: pairwise over the first `len(sbp)` positions when the DBP
sequence is at least as long as the SBP sequence, the single DBP value
broadcast against every SBP value when the DBP sequence has length 1, and
a raised broadcast error whenever the DBP sequence is shorter than the SBP
sequence with length ≠ 1 (the computation does not succeed whichever
sequence is shorter). -/
theorem c6_pulse_truncation :
    (∀ (g : List Reading) (m : VariabilityMetrics),
      calcPatientMetrics g = Except.ok m →
      (sbpSeq g).length ≤ (dbpSeq g).length →
      m.pulse_pressure_mean = some (pyRound 1 (meanQ (List.zipWith
        (fun x y => x - y) (sbpSeq g) ((dbpSeq g).take (sbpSeq g).length))))) ∧
    (∀ (g : List Reading) (m : VariabilityMetrics),
      calcPatientMetrics g = Except.ok m → (dbpSeq g).length = 1 →
      m.pulse_pressure_mean = some (pyRound 1 (meanQ
        ((sbpSeq g).map fun x => x - (dbpSeq g).headI)))) ∧
    (∀ g : List Reading,
      (dbpSeq g).length < (sbpSeq g).length → (dbpSeq g).length ≠ 1 →
      ∃ e, calcPatientMetrics g = Except.error e) := by
  refine ⟨?_, ?_, ?_⟩
  · intro g m h hlen
    obtain ⟨diffs, minS, maxS, minD, maxD, hsub, hminS, _, _, _, hm⟩ :=
      calcPatientMetrics_ok_inv g m h
    subst hm
    have hne : sbpSeq g ≠ [] := by
      intro he; rw [he] at hminS; exact Option.noConfusion hminS
    have htake : ((dbpSeq g).take (sbpSeq g).length).length = (sbpSeq g).length := by
      rw [List.length_take]
      exact Nat.min_eq_left hlen
    rw [npSub, if_pos htake] at hsub
    have hdiffs := Option.some.inj hsub
    subst hdiffs
    have hlength : (List.zipWith (fun x y => x - y) (sbpSeq g)
        ((dbpSeq g).take (sbpSeq g).length)).length = (sbpSeq g).length := by
      rw [List.length_zipWith, htake, Nat.min_self]
    simp only [okRecord, npMean]
    rw [if_neg]
    · rfl
    · simp only [List.isEmpty_iff]
      intro hz
      rw [hz] at hlength
      exact hne (List.length_eq_zero.mp hlength.symm)
  · intro g m h hlen
    obtain ⟨diffs, minS, maxS, minD, maxD, hsub, hminS, _, _, _, hm⟩ :=
      calcPatientMetrics_ok_inv g m h
    subst hm
    have hne : sbpSeq g ≠ [] := by
      intro he; rw [he] at hminS; exact Option.noConfusion hminS
    obtain ⟨d, hd⟩ := List.length_eq_one.mp hlen
    have hpos : 1 ≤ (sbpSeq g).length :=
      Nat.one_le_iff_ne_zero.mpr fun hz => hne (List.length_eq_zero.mp hz)
    have htake : (dbpSeq g).take (sbpSeq g).length = [d] := by
      rw [hd]
      exact List.take_of_length_le (by simpa using hpos)
    rw [htake, npSub_singleton _ _ hne] at hsub
    have hdiffs := Option.some.inj hsub
    subst hdiffs
    have hlength : ((sbpSeq g).map fun x => x - d).length = (sbpSeq g).length :=
      List.length_map _ _
    simp only [okRecord, npMean, hd, List.headI]
    rw [if_neg]
    · rfl
    · simp only [List.isEmpty_iff]
      intro hz
      rw [hz] at hlength
      exact hne (List.length_eq_zero.mp hlength.symm)
  · intro g hlt hne1
    rcases hD : dbpSeq g with _ | ⟨d, ds⟩
    · exact calcPatientMetrics_error_of_empty g (Or.inr hD)
    · refine ⟨CalcError.broadcastMismatch, calcPatientMetrics_broadcast g ?_⟩
      rw [hD] at hlt hne1
      have htake : (dbpSeq g).take (sbpSeq g).length = d :: ds := by
        rw [hD]
        exact List.take_of_length_le (Nat.le_of_lt hlt)
      rw [htake, npSub]
      rw [if_neg, if_neg, if_neg]
      · have : 2 ≤ (sbpSeq g).length := by
          have h2 : 2 ≤ (d :: ds).length := by
            simp only [List.length_cons] at hne1 ⊢
            omega
          omega
        omega
      · simpa using hne1
      · omega

/-- C6 counterexample: a group whose surviving DBP sequence (length 2) is
shorter than its SBP sequence (length 3) makes the engine raise a
broadcast error, contradicting `the computation succeeds whichever of the
two sequences is the shorter one`. -/
theorem c6_cx_short_dbp_error :
    calcPatientMetrics grpDbpShort = Except.error CalcError.broadcastMismatch ∧
    (dbpSeq grpDbpShort).length < (sbpSeq grpDbpShort).length := by
  refine ⟨calcPatientMetrics_broadcast grpDbpShort (by decide), by decide⟩

/-- C6 witness: the pairwise branch of the amended statement, applied to
the five-reading group with equal-length sequences. -/
theorem c6_witness_pairwise :
    ((calcPatientMetrics grpNormalDip).toOption.map fun m =>
      m.pulse_pressure_mean) = some (some (242 / 5 : ℚ)) := by
  have h := c6_pulse_truncation.1 grpNormalDip _ calc_grpNormalDip_ok (by decide)
  rw [calc_grpNormalDip_ok]
  simp only [Except.toOption, Option.map]
  rw [h]
  have hS : sbpSeq grpNormalDip = [120, 118, 140, 150, 145] := by decide
  have hD : dbpSeq grpNormalDip = [78, 76, 90, 95, 92] := by decide
  rw [hS, hD]
  norm_num [List.take, List.zipWith, meanQ, pyRound, halfEven, Int.fract]

/-- C7 amended: the per-patient engine guards its coefficient of variation
(0 whenever the mean is ≤ 0), but the visit-to-visit engine does not:
its CV is the unguarded `100 · SD / mean`, which is non-finite when the
mean is 0 and a nonzero (negative) value when the mean is negative. -/
theorem c7_cv_guard :
    (∀ (g : List Reading) (m : VariabilityMetrics),
      calcPatientMetrics g = Except.ok m →
      (meanQ (sbpSeq g) ≤ 0 → m.cv_sbp = 0) ∧
      (meanQ (dbpSeq g) ≤ 0 → m.cv_dbp = 0)) ∧
    (∀ (rows : List Visit) (r : VisitVariabilityRow),
      visitToVisitRow rows = some r →
      (meanQ ((sortByKey Visit.visit_date rows).map Visit.sbp) = 0 →
        r.cv_sbp = none) ∧
      (meanQ ((sortByKey Visit.visit_date rows).map Visit.sbp) ≠ 0 →
        r.cv_sbp = some (sdR ((sortByKey Visit.visit_date rows).map Visit.sbp) /
          ((meanQ ((sortByKey Visit.visit_date rows).map Visit.sbp) : ℚ) : ℝ) *
          100))) := by
  constructor
  · intro g m h
    obtain ⟨diffs, minS, maxS, minD, maxD, _, _, _, _, _, hm⟩ :=
      calcPatientMetrics_ok_inv g m h
    subst hm
    constructor
    · intro hmean
      simp only [okRecord]
      rw [if_neg (not_lt.mpr hmean)]
      exact pyRoundR_zero 2
    · intro hmean
      simp only [okRecord]
      rw [if_neg (not_lt.mpr hmean)]
      exact pyRoundR_zero 2
  · intro rows r h
    simp only [visitToVisitRow] at h
    split at h
    · have hr := Option.some.inj h
      subst hr
      constructor
      · intro hmean
        simp only [npDivR]
        rw [if_pos hmean]
        rfl
      · intro hmean
        simp only [npDivR]
        rw [if_neg hmean]
        rfl
    · exact Option.noConfusion h

/-- C7 counterexample: three visits with SBP -4, -5, -6 have mean -5 ≤ 0
and sample SD 1, and the visit-to-visit CV is -20, not 0. -/
theorem c7_cx_visit_cv_negative :
    ((visitToVisitRow visitsNeg).map fun r => r.cv_sbp) =
      some (some (-20 : ℝ)) ∧
    meanQ (visitsNeg.map Visit.sbp) = -5 ∧ ((-5 : ℚ) ≤ 0 ∧ (-20 : ℝ) ≠ 0) := by
  have hsort : sortByKey Visit.visit_date visitsNeg = visitsNeg := by decide
  have hm : visitsNeg.map Visit.sbp = [-4, -5, -6] := by decide
  have hvar : sampleVar [(-4 : ℚ), -5, -6] = 1 := by
    norm_num [sampleVar, meanQ]
  have hsd : sdR [(-4 : ℚ), -5, -6] = 1 := by
    rw [sdR, hvar]
    norm_num
  have hmean : meanQ [(-4 : ℚ), -5, -6] = -5 := by norm_num [meanQ]
  refine ⟨?_, by rw [hm, hmean], by norm_num, by norm_num⟩
  simp only [visitToVisitRow, hsort, hm]
  rw [if_pos (by norm_num)]
  simp only [Option.map, npDivR]
  rw [if_neg (by rw [hmean]; norm_num)]
  rw [hsd, hmean]
  norm_num

/-- C7 witness: the guarded branch of the amended statement at a group
with mean SBP -1. -/
theorem c7_witness_cv :
    ((calcPatientMetrics grpNegMean).toOption.map fun m => m.cv_sbp) = some 0 ∧
    meanQ (sbpSeq grpNegMean) ≤ 0 := by
  have hS : sbpSeq grpNegMean = [-1, -1] := by decide
  have hmean : meanQ (sbpSeq grpNegMean) ≤ 0 := by
    rw [hS]
    norm_num [meanQ]
  refine ⟨?_, hmean⟩
  have h := (c7_cv_guard.1 grpNegMean _ calc_grpNegMean_ok).1 hmean
  rw [calc_grpNegMean_ok]
  simp only [Except.toOption, Option.map]
  rw [h]

/-- C1 evaluation: on a group with day SBP SD 0 and night SBP SD 1 (two
day readings, three night readings) the engine reports weighted SD 0.53 —
the night bucket is weighted by 16 hours out of 30 (the expression
`6 - 0 + 24 - 22 + 8`), while the claimed formula
`(SD_day · 14 + SD_night · 10) / 24` gives 0.42 on the same data. -/
theorem c1_weighted_sd_night16_eval :
    ((calcPatientMetrics grpWSd).toOption.map fun m => m.weighted_sd_sbp) =
      some (some (some (53 / 100 : ℝ))) ∧
    pyRoundR 2 ((sdR [100, 100] * 14 + sdR [99, 100, 101] * 10) / 24) =
      42 / 100 := by
  have hvar0 : sampleVar [(100 : ℚ), 100] = 0 := by
    norm_num [sampleVar, meanQ]
  have hsd0 : sdR [(100 : ℚ), 100] = 0 := by
    rw [sdR, hvar0]
    norm_num
  have hvar1 : sampleVar [(99 : ℚ), 100, 101] = 1 := by
    norm_num [sampleVar, meanQ]
  have hsd1 : sdR [(99 : ℚ), 100, 101] = 1 := by
    rw [sdR, hvar1]
    norm_num
  constructor
  · rw [calc_grpWSd_ok]
    have hdn : dayNightOf grpWSd = some
        { day_sbp := [some 100, some 100], day_dbp := [some 70, some 71],
          day_hours := 14, night_sbp := [some 99, some 100, some 101],
          night_dbp := [some 60, some 61, some 62], night_hours := 16 } := by
      decide
    simp only [Except.toOption, Option.map, okRecord, hdn]
    norm_num +decide [calcWeightedSd, npStdO, allSome, hsd0, hsd1,
      pyTruthyRoundR, pyRoundR, halfEvenR, Int.fract]
  · rw [hsd0, hsd1]
    norm_num [pyRoundR, halfEvenR, Int.fract]

theorem length_filterMap_of_isSome (f : Reading → Option ℚ) (l : List Reading)
    (hp : ∀ r ∈ l, (f r).isSome) : (l.filterMap f).length = l.length := by
  rw [length_filterMap_isSome]
  congr 1
  exact List.filter_eq_self.mpr hp

theorem filterMap_take_of_isSome (f : Reading → Option ℚ) (l : List Reading)
    (hp : ∀ r ∈ l, (f r).isSome) (k : ℕ) :
    (l.take k).filterMap f = (l.filterMap f).take k := by
  induction l generalizing k with
  | nil => simp
  | cons x xs ih =>
      cases k with
      | zero => simp
      | succ k =>
          obtain ⟨v, hv⟩ := Option.isSome_iff_exists.mp
            (hp x (List.mem_cons_self x xs))
          rw [List.take_succ_cons, List.filterMap_cons, List.filterMap_cons, hv,
            List.take_succ_cons, ih fun r hr => hp r (List.mem_cons_of_mem x hr)]

theorem splitDayNight_of_counts (df : List Reading)
    (hday : 2 ≤ (dayRows df).length) (hnight : 2 ≤ (nightRows df).length) :
    splitDayNight df = some
      { day_sbp := (dayRows df).map Reading.sbp
        day_dbp := (dayRows df).map Reading.dbp
        day_hours := 14
        night_sbp := (nightRows df).map Reading.sbp
        night_dbp := (nightRows df).map Reading.dbp
        night_hours := 16 } := by
  simp only [splitDayNight]
  rw [if_neg]
  · rfl
  · simp only [not_or, not_lt]
    exact ⟨hday, hnight⟩

theorem dayNightOf_of_counts (g : List Reading)
    (hday : 2 ≤ (dayRows (sortReadings g)).length)
    (hnight : 2 ≤ (nightRows (sortReadings g)).length) :
    dayNightOf g = some
      { day_sbp := (dayRows (sortReadings g)).map Reading.sbp
        day_dbp := (dayRows (sortReadings g)).map Reading.dbp
        day_hours := 14
        night_sbp := (nightRows (sortReadings g)).map Reading.sbp
        night_dbp := (nightRows (sortReadings g)).map Reading.dbp
        night_hours := 16 } := by
  have hpos : 0 < (sortReadings g).length := by
    have := List.length_filter_le
      (fun r => decide (DAYTIME_START ≤ hourOf r ∧ hourOf r < DAYTIME_END))
      (sortReadings g)
    simp only [dayRows] at hday
    omega
  rw [dayNightOf, if_pos hpos]
  exact splitDayNight_of_counts _ hday hnight

theorem npMeanO_map_of_isSome (f : Reading → Option ℚ) (l : List Reading)
    (hp : ∀ r ∈ l, (f r).isSome) (hne : l ≠ []) :
    npMeanO (l.map f) = some (meanQ (l.filterMap f)) := by
  simp only [npMeanO, allSome_map f l hp]
  rw [if_neg]
  simp only [List.isEmpty_iff]
  intro hz
  have := length_filterMap_of_isSome f l hp
  rw [hz] at this
  exact hne (List.length_eq_zero.mp this.symm)

theorem npMinO_map_of_isSome (f : Reading → Option ℚ) (l : List Reading)
    (hp : ∀ r ∈ l, (f r).isSome) :
    npMinO (l.map f) = (l.filterMap f).min? := by
  simp only [npMinO, allSome_map f l hp]

/-- C4 amended: with both circadian buckets populated (≥ 2 readings, all
SBP cells present) the dipping percentage is absent exactly when the mean
daytime SBP equals 0 or the unrounded percentage
`100 · (mean_day − mean_night) / mean_day` itself equals 0 (the truthiness
of `0.0`); in every other case it is present and equals that formula
rounded to 1 decimal, never infinity. -/
theorem c4_dipping_presence (g : List Reading) (m : VariabilityMetrics)
    (h : calcPatientMetrics g = Except.ok m)
    (hpres : ∀ r ∈ g, (Reading.sbp r).isSome)
    (hday : 2 ≤ (dayRows (sortReadings g)).length)
    (hnight : 2 ≤ (nightRows (sortReadings g)).length) :
    m.dipping_percentage =
      (if meanQ (daySbp g) = 0 then none
       else if (meanQ (daySbp g) - meanQ (nightSbp g)) / meanQ (daySbp g) * 100 = 0
       then none
       else some (some (pyRound 1
         ((meanQ (daySbp g) - meanQ (nightSbp g)) / meanQ (daySbp g) * 100)))) := by
  obtain ⟨diffs, minS, maxS, minD, maxD, _, _, _, _, _, hm⟩ :=
    calcPatientMetrics_ok_inv g m h
  subst hm
  have hpres' : ∀ r ∈ sortReadings g, (Reading.sbp r).isSome := fun r hr =>
    hpres r ((sortReadings_perm g).mem_iff.mp hr)
  have hpd : ∀ r ∈ dayRows (sortReadings g), (Reading.sbp r).isSome := fun r hr =>
    hpres' r (List.mem_of_mem_filter hr)
  have hpn : ∀ r ∈ nightRows (sortReadings g), (Reading.sbp r).isSome := fun r hr =>
    hpres' r (List.mem_of_mem_filter hr)
  have hdne : dayRows (sortReadings g) ≠ [] := by
    intro hz
    rw [hz] at hday
    exact absurd hday (by norm_num)
  have hnne : nightRows (sortReadings g) ≠ [] := by
    intro hz
    rw [hz] at hnight
    exact absurd hnight (by norm_num)
  simp only [okRecord, dayNightOf_of_counts g hday hnight, Option.bind,
    calcDipping, npMeanO_map_of_isSome Reading.sbp _ hpd hdne,
    npMeanO_map_of_isSome Reading.sbp _ hpn hnne]
  by_cases h0 : meanQ (daySbp g) = 0
  · simp only [daySbp] at h0
    rw [if_pos h0, if_pos (by simpa [daySbp] using h0)]
    rfl
  · have h0' : ¬(meanQ ((dayRows (sortReadings g)).filterMap Reading.sbp) = 0) := by
      simpa [daySbp] using h0
    rw [if_neg h0', if_neg (by simpa [daySbp] using h0)]
    by_cases hpct : (meanQ (daySbp g) - meanQ (nightSbp g)) / meanQ (daySbp g) * 100 = 0
    · rw [if_pos hpct]
      simp only [pyTruthyRound]
      rw [if_pos (by simpa [daySbp, nightSbp] using hpct)]
    · rw [if_neg hpct]
      simp only [pyTruthyRound]
      rw [if_neg (by simpa [daySbp, nightSbp] using hpct)]
      simp [daySbp, nightSbp]

/-- C4 witness: the amended statement at the end-to-end group (day means
145, night 119): dipping percentage present and equal to 17.9. -/
theorem c4_witness_normal_dipper :
    ((calcPatientMetrics grpNormalDip).toOption.map fun m =>
      m.dipping_percentage) = some (some (179 / 10 : ℚ)) := by
  have h := c4_dipping_presence grpNormalDip _ calc_grpNormalDip_ok
    (by decide) (by decide) (by decide)
  rw [calc_grpNormalDip_ok]
  simp only [Except.toOption, Option.map]
  rw [h]
  have hd : daySbp grpNormalDip = [140, 150, 145] := by decide
  have hn : nightSbp grpNormalDip = [120, 118] := by decide
  rw [hd, hn]
  norm_num [meanQ, pyRound, halfEven, Int.fract]

/-- C5 amended: with both circadian buckets populated (≥ 2 readings, all
SBP cells present) the morning surge is the mean of the first
`max(1, ⌊day_count / 4⌋)` daytime SBP readings in chronological order —
a floored quarter with a floor of one, not the ceiling `⌈day_count/4⌉` —
minus the minimum nighttime SBP, rounded to 1 decimal; and it is reported
absent not only for an empty bucket (impossible under the ≥ 2 gate) but
also whenever the unrounded surge equals 0. -/
theorem c5_morning_surge (g : List Reading) (m : VariabilityMetrics)
    (h : calcPatientMetrics g = Except.ok m)
    (hpres : ∀ r ∈ g, (Reading.sbp r).isSome)
    (hday : 2 ≤ (dayRows (sortReadings g)).length)
    (hnight : 2 ≤ (nightRows (sortReadings g)).length)
    (lo : ℚ) (hlo : (nightSbp g).min? = some lo) :
    m.morning_surge =
      (if meanQ ((daySbp g).take (max 1 ((daySbp g).length / 4))) - lo = 0
       then none
       else some (some (pyRound 1
         (meanQ ((daySbp g).take (max 1 ((daySbp g).length / 4))) - lo)))) := by
  obtain ⟨diffs, minS, maxS, minD, maxD, _, _, _, _, _, hm⟩ :=
    calcPatientMetrics_ok_inv g m h
  subst hm
  have hpres' : ∀ r ∈ sortReadings g, (Reading.sbp r).isSome := fun r hr =>
    hpres r ((sortReadings_perm g).mem_iff.mp hr)
  have hpd : ∀ r ∈ dayRows (sortReadings g), (Reading.sbp r).isSome := fun r hr =>
    hpres' r (List.mem_of_mem_filter hr)
  have hpn : ∀ r ∈ nightRows (sortReadings g), (Reading.sbp r).isSome := fun r hr =>
    hpres' r (List.mem_of_mem_filter hr)
  have hdlen : (daySbp g).length = (dayRows (sortReadings g)).length :=
    length_filterMap_of_isSome Reading.sbp _ hpd
  have hdne : dayRows (sortReadings g) ≠ [] := by
    intro hz
    rw [hz] at hday
    exact absurd hday (by norm_num)
  have htne : (dayRows (sortReadings g)).take
      (max 1 ((dayRows (sortReadings g)).length / 4)) ≠ [] := by
    intro hz
    have := congrArg List.length hz
    rw [List.length_take] at this
    simp only [List.length_nil] at this
    have h1 : 1 ≤ max 1 ((dayRows (sortReadings g)).length / 4) :=
      le_max_left _ _
    have h2 : 1 ≤ (dayRows (sortReadings g)).length := by
      have := List.length_pos.mpr hdne
      omega
    omega
  have hptd : ∀ r ∈ (dayRows (sortReadings g)).take
      (max 1 ((dayRows (sortReadings g)).length / 4)),
      (Reading.sbp r).isSome := fun r hr =>
    hpd r (List.take_subset _ _ hr)
  simp only [okRecord, dayNightOf_of_counts g hday hnight, Option.bind,
    calcMorningSurge]
  rw [if_neg, if_neg]
  · simp only [List.length_map]
    rw [← List.map_take,
      npMeanO_map_of_isSome Reading.sbp _ hptd htne,
      npMinO_map_of_isSome Reading.sbp _ hpn]
    have hmin : ((nightRows (sortReadings g)).filterMap Reading.sbp).min? =
        some lo := hlo
    rw [hmin]
    have hmean : meanQ (((dayRows (sortReadings g)).take
        (max 1 ((dayRows (sortReadings g)).length / 4))).filterMap Reading.sbp) =
        meanQ ((daySbp g).take (max 1 ((daySbp g).length / 4))) := by
      rw [filterMap_take_of_isSome Reading.sbp _ hpd, hdlen]
      rfl
    rw [hmean]
    by_cases hz : meanQ ((daySbp g).take (max 1 ((daySbp g).length / 4))) - lo = 0
    · rw [if_pos hz]
      simp only [pyTruthyRound]
      rw [if_pos hz]
    · rw [if_neg hz]
      simp only [pyTruthyRound]
      rw [if_neg hz]
  · simp only [List.length_map]
    intro hz
    rw [hz] at hday
    exact absurd hday (by norm_num)
  · simp only [List.length_map]
    intro hz
    rw [hz] at hnight
    exact absurd hnight (by norm_num)

/-- C5 counterexample: with five daytime readings the morning window is
`max(1, 5 // 4) = 1` reading, not `⌈5/4⌉ = 2`: the engine reports surge
100 − 90 = 10, while the claimed formula gives (100+120)/2 − 90 = 20. -/
theorem c5_cx_quarter_floor :
    ((calcPatientMetrics grpDay5).toOption.map fun m => m.morning_surge) =
      some (some (10 : ℚ)) ∧
    meanQ ((daySbp grpDay5).take 2) - 90 = 20 ∧
    (daySbp grpDay5).length = 5 ∧ ((10 : ℚ) ≠ 20) := by
  refine ⟨?_, ?_, by decide, by norm_num⟩
  · rw [calc_grpDay5_ok]
    have hdn : dayNightOf grpDay5 = some
        { day_sbp := [some 100, some 120, some 120, some 120, some 120]
          day_dbp := [some 70, some 70, some 70, some 70, some 70]
          day_hours := 14
          night_sbp := [some 90, some 95]
          night_dbp := [some 60, some 60]
          night_hours := 16 } := by decide
    simp only [Except.toOption, Option.map, okRecord, hdn, Option.bind,
      calcMorningSurge]
    norm_num +decide [npMeanO, npMinO, allSome, meanQ, pyTruthyRound, pyRound,
      halfEven, Int.fract, List.take, List.min?, List.foldl, min_def]
  · have hd : daySbp grpDay5 = [100, 120, 120, 120, 120] := by decide
    rw [hd]
    norm_num [List.take, meanQ]

/-- C5 witness: the amended statement at the end-to-end group: three day
readings give a window of one reading, surge 140 − 118 = 22. -/
theorem c5_witness_surge :
    ((calcPatientMetrics grpNormalDip).toOption.map fun m => m.morning_surge) =
      some (some (22 : ℚ)) := by
  have hlo : (nightSbp grpNormalDip).min? = some 118 := by
    have hn : nightSbp grpNormalDip = [120, 118] := by decide
    rw [hn]
    norm_num [List.min?, List.foldl, min_def]
  have h := c5_morning_surge grpNormalDip _ calc_grpNormalDip_ok
    (by decide) (by decide) (by decide) 118 hlo
  rw [calc_grpNormalDip_ok]
  simp only [Except.toOption, Option.map]
  rw [h]
  have hd : daySbp grpNormalDip = [140, 150, 145] := by decide
  rw [hd]
  norm_num [List.take, meanQ, pyRound, halfEven, Int.fract]

end BPM
